import Mathlib

/-!
Verification development for the traking_income payroll ledger.

The repository has two variants of the reconciliation core:

- app.py (Flask-SQLAlchemy): a full-rebuild reconciliation
  (reconcile_monthly_totals) that rebuilds the whole monthly_totals table
  from payroll_items, keeping manually entered notes, plus the CRUD routes
  (create_item, create_total, query_items, index, ensure_database_ready,
  seed_demo_data).
- database.py (raw sqlite): a single-period reconciliation
  (recalculate_month_totals) that upserts one monthly_totals row for a
  given period from detail_entries.

Both are embedded shallowly below.  Monetary amounts are modelled as exact
rationals; the Python built-in round(x, 2) is modelled as rounding to the
nearest multiple of 1/100 with ties going to the even multiple, which is
the round-half-to-even rule Python uses.  Database tables are modelled as
lists of rows, SQL GROUP BY / SUM as list filters and sums, and the unique
key on the month/period column as retrieval via List.find?.
-/

namespace TrakingIncome

/-- Round a rational to the nearest integer, ties to even: the model of the
Python built-in round restricted to integer results. -/
def roundHalfEvenZ (q : ℚ) : ℤ :=
  if q - ⌊q⌋ < 1/2 then ⌊q⌋
  else if 1/2 < q - ⌊q⌋ then ⌊q⌋ + 1
  else if ⌊q⌋ % 2 = 0 then ⌊q⌋ else ⌊q⌋ + 1

/-- Model of the Python expression round(q, 2): scale by 100, round half to
even, scale back. -/
def round2 (q : ℚ) : ℚ := (roundHalfEvenZ (q * 100) : ℚ) / 100

lemma roundHalfEvenZ_of_lt_half (q : ℚ) (n : ℤ) (h1 : (n : ℚ) ≤ q)
    (h2 : q - (n : ℚ) < 1/2) : roundHalfEvenZ q = n := by
  have hf : ⌊q⌋ = n := Int.floor_eq_iff.mpr ⟨h1, by linarith⟩
  unfold roundHalfEvenZ
  rw [hf]
  rw [if_pos h2]

lemma roundHalfEvenZ_of_half_lt (q : ℚ) (n : ℤ) (h1 : 1/2 < q - (n : ℚ))
    (h2 : q < (n : ℚ) + 1) : roundHalfEvenZ q = n + 1 := by
  have hf : ⌊q⌋ = n := Int.floor_eq_iff.mpr ⟨by linarith, by linarith⟩
  unfold roundHalfEvenZ
  rw [hf]
  rw [if_neg (by linarith), if_pos h1]

lemma round2_of_lt_half (q : ℚ) (n : ℤ) (h1 : (n : ℚ) ≤ q * 100)
    (h2 : q * 100 - (n : ℚ) < 1/2) : round2 q = (n : ℚ) / 100 := by
  rw [round2, roundHalfEvenZ_of_lt_half (q * 100) n h1 h2]

lemma round2_of_half_lt (q : ℚ) (n : ℤ) (h1 : 1/2 < q * 100 - (n : ℚ))
    (h2 : q * 100 < (n : ℚ) + 1) : round2 q = ((n : ℚ) + 1) / 100 := by
  rw [round2, roundHalfEvenZ_of_half_lt (q * 100) n h1 h2]
  push_cast
  ring

lemma round2_zero : round2 0 = 0 := by
  rw [round2_of_lt_half 0 0 (by norm_num) (by norm_num)]
  norm_num

lemma round2_hundred : round2 100 = 100 := by
  rw [round2_of_lt_half 100 10000 (by norm_num) (by norm_num)]
  norm_num

/-! ### Full-rebuild variant: the data model of app.py -/

/-- One row of the payroll_items table (class PayrollItem in app.py).
The created_at / updated_at timestamp columns are not modelled; id is the
autoincrement primary key. -/
structure PayrollItem where
  id : Nat
  month : String
  subject : String
  description : Option String
  reference : Option String
  amount : ℚ
  item_type : String

/-- One row of the monthly_totals table (class MonthlyTotal in app.py).
The autoincrement id column is not modelled; month carries a unique
constraint, modelled by retrieving rows with List.find?. -/
structure MonthlyTotal where
  month : String
  total_proventos : ℚ
  total_descontos : ℚ
  valor_liquido : ℚ
  notes : Option String

/-- The persistent state of the app.py application: the two tables plus the
next autoincrement id for payroll_items. -/
structure AppState where
  items : List PayrollItem
  totals : List MonthlyTotal
  nextId : Nat

/-- Per-month income sum in reconcile_monthly_totals: the SQL query groups
payroll_items by (month, item_type); the provento group and every
unrecognized-type group are added to the proventos accumulator, so the
accumulated value is the sum of amounts over all items of the month whose
type is not desconto. -/
def proventosSum (items : List PayrollItem) (m : String) : ℚ :=
  ((items.filter (fun i => decide (i.month = m ∧ i.item_type ≠ "desconto"))).map
    (fun i => i.amount)).sum

/-- Per-month signed desconto sum: the single (month, desconto) group total
before the abs call in reconcile_monthly_totals. -/
def descontosSumSigned (items : List PayrollItem) (m : String) : ℚ :=
  ((items.filter (fun i => decide (i.month = m ∧ i.item_type = "desconto"))).map
    (fun i => i.amount)).sum

/-- The distinct months occurring in payroll_items: the key set of the
aggregates dictionary built by the grouped query. -/
def months (items : List PayrollItem) : List String :=
  (items.map (fun i => i.month)).dedup

/-- The notes_map lookup captured at the start of reconcile_monthly_totals:
notes of the existing aggregate row of the month, if any. -/
def notesMap (totals : List MonthlyTotal) (m : String) : Option String :=
  (totals.find? (fun t => decide (t.month = m))).bind (fun t => t.notes)

/-- The fresh MonthlyTotal row inserted by reconcile_monthly_totals for one
month: proventos and descontos rounded to 2 decimals, valor_liquido the
rounded difference of the unrounded accumulators, notes reattached from the
captured lookup.  The abs call in the source is applied to the desconto
group total, hence the absolute value of the signed sum. -/
def monthRow (items : List PayrollItem) (notesOf : String → Option String)
    (m : String) : MonthlyTotal :=
  let proventos := proventosSum items m
  let descontos := |descontosSumSigned items m|
  { month := m
    total_proventos := round2 proventos
    total_descontos := round2 descontos
    valor_liquido := round2 (proventos - descontos)
    notes := notesOf m }

/-- reconcile_monthly_totals from app.py: capture existing notes, delete the
whole monthly_totals table, reinsert one row per month that has at least
one payroll item. -/
def reconcile_monthly_totals (s : AppState) : AppState :=
  { s with totals := (months s.items).map (monthRow s.items (notesMap s.totals)) }

/-- The six demo payroll items inserted by seed_demo_data, with autoincrement
ids starting at n. -/
def demoItems (n : Nat) : List PayrollItem :=
  [⟨n, "2025-01", "Folha Mensal", some "Salário Base", some "220h", 7200, "provento"⟩,
   ⟨n + 1, "2025-01", "Folha Mensal", some "INSS", none, -(17003/20), "desconto"⟩,
   ⟨n + 2, "2025-01", "Horas Extras", some "HE 50%", some "12h", 1681/2, "provento"⟩,
   ⟨n + 3, "2025-02", "Folha Mensal", some "Salário Base", some "220h", 7200, "provento"⟩,
   ⟨n + 4, "2025-02", "Folha Mensal", some "Imposto de Renda", none, -(112033/100), "desconto"⟩,
   ⟨n + 5, "2025-02", "Outros", some "PLR Parcial", none, 1500, "provento"⟩]

/-- seed_demo_data from app.py: insert the demo rows and reconcile. -/
def seed_demo_data (s : AppState) : AppState :=
  reconcile_monthly_totals
    { s with items := s.items ++ demoItems s.nextId, nextId := s.nextId + 6 }

/-- ensure_database_ready from app.py: seed the demo data when the
payroll_items table is empty (table creation and the on-disk file are not
modelled). -/
def ensure_database_ready (s : AppState) : AppState :=
  if s.items.isEmpty then seed_demo_data s else s

/-- create_item from app.py (route POST /items).  The amount form field goes
through the Python float constructor before anything is inserted; the
argument amount is the result of that parse, none modelling the ValueError
raised on a non-numeric string, in which case nothing is inserted.  The
item_type field is inserted without any validation.  After the insert the
route reconciles. -/
def create_item (s : AppState) (month subject : String)
    (description reference : Option String) (amount : Option ℚ)
    (item_type : String) : Except String AppState :=
  let s0 := ensure_database_ready s
  match amount with
  | none => Except.error "ValueError: could not convert string to float"
  | some a =>
      Except.ok (reconcile_monthly_totals
        { s0 with
          items := s0.items ++
            [⟨s0.nextId, month, subject, description, reference, a, item_type⟩]
          nextId := s0.nextId + 1 })

/-- create_total from app.py (route POST /totals): a manual aggregate
insert.  The route first calls ensure_database_ready (which seeds and
reconciles when the payroll_items table is empty), then checks for an
existing row of the month: if one exists a warning is flashed and nothing
is inserted; the Bool result records whether the warning was flashed.
Otherwise the row is inserted with valor_liquido computed unrounded. -/
def create_total (s : AppState) (month : String) (total_proventos total_descontos : ℚ)
    (notes : Option String) : AppState × Bool :=
  let s0 := ensure_database_ready s
  if s0.totals.any (fun t => decide (t.month = month)) then
    (s0, true)
  else
    ({ s0 with totals := s0.totals ++
        [{ month := month
           total_proventos := total_proventos
           total_descontos := total_descontos
           valor_liquido := total_proventos - total_descontos
           notes := notes }] }, false)

/-- The ORDER BY month DESC, id DESC ordering used by query_items and the
item listing of the index route. -/
def itemOrder (a b : PayrollItem) : Prop :=
  b.month < a.month ∨ (a.month = b.month ∧ b.id ≤ a.id)

instance : DecidableRel itemOrder := fun a b =>
  inferInstanceAs (Decidable (b.month < a.month ∨ (a.month = b.month ∧ b.id ≤ a.id)))

instance : IsTotal PayrollItem itemOrder where
  total a b := by
    rcases lt_trichotomy a.month b.month with h | h | h
    · exact Or.inr (Or.inl h)
    · rcases le_total a.id b.id with hid | hid
      · exact Or.inr (Or.inr ⟨h.symm, hid⟩)
      · exact Or.inl (Or.inr ⟨h, hid⟩)
    · exact Or.inl (Or.inl h)

instance : IsTrans PayrollItem itemOrder where
  trans a b c hab hbc := by
    rcases hab with h1 | ⟨e1, i1⟩
    · rcases hbc with h2 | ⟨e2, i2⟩
      · exact Or.inl (h2.trans h1)
      · exact Or.inl (by rw [← e2]; exact h1)
    · rcases hbc with h2 | ⟨e2, i2⟩
      · exact Or.inl (by rw [e1]; exact h2)
      · exact Or.inr ⟨e1.trans e2, i2.trans i1⟩

/-- The month filter of query_items: applied only when the parameter is
present and non-empty (Python truthiness of the form value). -/
def monthFilterOk (filter_month : Option String) (i : PayrollItem) : Bool :=
  match filter_month with
  | none => true
  | some v => if v = "" then true else decide (i.month = v)

/-- The item_type filter of query_items, same truthiness convention. -/
def typeFilterOk (filter_type : Option String) (i : PayrollItem) : Bool :=
  match filter_type with
  | none => true
  | some v => if v = "" then true else decide (i.item_type = v)

/-- The conjunction of the two optional filters of query_items. -/
def matchesFilters (filter_month filter_type : Option String)
    (i : PayrollItem) : Bool :=
  monthFilterOk filter_month i && typeFilterOk filter_type i

/-- query_items from app.py: apply the optional filters, then order by
month descending and id descending. -/
def query_items (items : List PayrollItem) (filter_month filter_type : Option String) :
    List PayrollItem :=
  List.insertionSort itemOrder (items.filter (matchesFilters filter_month filter_type))

/-- Ascending month order on aggregate rows, used by build_dashboard_data. -/
def totalOrderAsc (a b : MonthlyTotal) : Prop := a.month ≤ b.month

instance : DecidableRel totalOrderAsc := fun a b =>
  inferInstanceAs (Decidable (a.month ≤ b.month))

/-- Descending month order on aggregate rows, used by the index route. -/
def totalOrderDesc (a b : MonthlyTotal) : Prop := b.month ≤ a.month

instance : DecidableRel totalOrderDesc := fun a b =>
  inferInstanceAs (Decidable (b.month ≤ a.month))

/-- Descending order on month strings, used for the month dropdown. -/
def stringDesc (a b : String) : Prop := b ≤ a

instance : DecidableRel stringDesc := fun a b =>
  inferInstanceAs (Decidable (b ≤ a))

/-- The series and latest entry computed by build_dashboard_data. -/
structure DashboardData where
  months : List String
  proventos : List ℚ
  descontos : List ℚ
  liquido : List ℚ
  latest : Option MonthlyTotal

/-- build_dashboard_data from app.py: sort the aggregate rows by month
ascending, project the three numeric series, and take the last row as the
latest period. -/
def build_dashboard_data (totals : List MonthlyTotal) : DashboardData :=
  let sorted_totals := List.insertionSort totalOrderAsc totals
  { months := sorted_totals.map (fun t => t.month)
    proventos := sorted_totals.map (fun t => t.total_proventos)
    descontos := sorted_totals.map (fun t => t.total_descontos)
    liquido := sorted_totals.map (fun t => t.valor_liquido)
    latest := sorted_totals.getLast? }

/-- Everything the index route passes to the template. -/
structure RenderData where
  items : List PayrollItem
  totals : List MonthlyTotal
  monthsList : List String
  query_results : List PayrollItem
  selected_month : String
  selected_type : String
  dashboard : DashboardData

/-- The index route (GET /) from app.py: ensure the database, run the full
reconciliation, then read the rows and render.  The returned pair is the
database state after the request and the rendered data. -/
def index (s : AppState) (filter_month filter_type : Option String) :
    AppState × RenderData :=
  let s1 := ensure_database_ready s
  let s2 := reconcile_monthly_totals s1
  (s2,
   { items := List.insertionSort itemOrder s2.items
     totals := List.insertionSort totalOrderDesc s2.totals
     monthsList := List.insertionSort stringDesc (months s2.items)
     query_results := query_items s2.items filter_month filter_type
     selected_month := filter_month.getD ""
     selected_type := filter_type.getD ""
     dashboard := build_dashboard_data (List.insertionSort totalOrderDesc s2.totals) })

/-! ### Single-period variant: the data model of database.py -/

/-- One row of the detail_entries table of the database.py schema.  The
schema constrains entry_type by CHECK to provento or desconto; the field is
kept as a string because rows only ever reach recalculate_month_totals
after passing that constraint.  created_at is not modelled. -/
structure DetailEntry where
  id : Nat
  period : String
  description : String
  entry_type : String
  amount : ℚ

/-- One row of the monthly_totals table of the database.py schema (which
has no notes column).  The autoincrement id and updated_at are not
modelled; period carries a UNIQUE constraint. -/
structure MonthlyTotalsRow where
  period : String
  total_proventos : ℚ
  total_descontos : ℚ
  valor_liquido : ℚ

/-- The SELECT of recalculate_month_totals, proventos side: over the rows
of the period, sum amount when entry_type is provento and 0 otherwise. -/
def provSum (entries : List DetailEntry) (p : String) : ℚ :=
  ((entries.filter (fun e => decide (e.period = p))).map
    (fun e => if e.entry_type = "provento" then e.amount else 0)).sum

/-- The SELECT of recalculate_month_totals, descontos side: the signed sum
of desconto amounts of the period; no absolute value is taken. -/
def descSum (entries : List DetailEntry) (p : String) : ℚ :=
  ((entries.filter (fun e => decide (e.period = p))).map
    (fun e => if e.entry_type = "desconto" then e.amount else 0)).sum

/-- The INSERT ... ON CONFLICT(period) DO UPDATE of database.py: replace
the numeric fields of the existing row of the period, or append a fresh
row. -/
def upsertTotals : List MonthlyTotalsRow → MonthlyTotalsRow → List MonthlyTotalsRow
  | [], r => [r]
  | t :: ts, r => if t.period = r.period then r :: ts else t :: upsertTotals ts r

/-- recalculate_month_totals from database.py: recompute the two sums for
one period, upsert the row, and return the computed values (the dict the
Python function returns). -/
def recalculate_month_totals (entries : List DetailEntry)
    (totals : List MonthlyTotalsRow) (period : String) :
    List MonthlyTotalsRow × MonthlyTotalsRow :=
  let total_proventos := provSum entries period
  let total_descontos := descSum entries period
  let valor_liquido := total_proventos - total_descontos
  let row : MonthlyTotalsRow := ⟨period, total_proventos, total_descontos, valor_liquido⟩
  (upsertTotals totals row, row)

/-! ### Shared helper lemmas -/

lemma find?_map_key {β : Type} (f : String → β) (key : β → String)
    (hkey : ∀ x, key (f x) = x) (l : List String) (m : String) (hm : m ∈ l) :
    (l.map f).find? (fun b => decide (key b = m)) = some (f m) := by
  induction l with
  | nil => cases hm
  | cons x xs ih =>
    rcases eq_or_ne x m with rfl | hne
    · rw [List.map_cons, List.find?_cons_of_pos]
      simp [hkey]
    · cases List.mem_cons.mp hm with
      | inl h => exact absurd h.symm hne
      | inr h2 =>
        rw [List.map_cons, List.find?_cons_of_neg]
        · exact ih h2
        · simp [hkey, hne]

lemma find?_map_key_none {β : Type} (f : String → β) (key : β → String)
    (hkey : ∀ x, key (f x) = x) (l : List String) (m : String) (hm : m ∉ l) :
    (l.map f).find? (fun b => decide (key b = m)) = none := by
  induction l with
  | nil => rfl
  | cons x xs ih =>
    have hxm : x ≠ m := fun h => hm (h ▸ List.mem_cons_self x xs)
    rw [List.map_cons, List.find?_cons_of_neg]
    · exact ih (fun h => hm (List.mem_cons_of_mem x h))
    · simp [hkey, hxm]

lemma find?_upsertTotals (ts : List MonthlyTotalsRow) (r : MonthlyTotalsRow) :
    (upsertTotals ts r).find? (fun t => decide (t.period = r.period)) = some r := by
  induction ts with
  | nil => simp [upsertTotals, List.find?]
  | cons t ts ih =>
    by_cases h : t.period = r.period
    · simp [upsertTotals, h, List.find?]
    · rw [upsertTotals, if_neg h, List.find?_cons_of_neg]
      · exact ih
      · simp [h]

lemma upsertTotals_idem (ts : List MonthlyTotalsRow) (r : MonthlyTotalsRow) :
    upsertTotals (upsertTotals ts r) r = upsertTotals ts r := by
  induction ts with
  | nil => simp [upsertTotals]
  | cons t ts ih =>
    by_cases h : t.period = r.period
    · simp [upsertTotals, h]
    · rw [upsertTotals, if_neg h, upsertTotals, if_neg h, ih]

lemma case_sum_eq_filter_sum (l : List DetailEntry) (p ty : String) :
    ((l.filter (fun e => decide (e.period = p))).map
      (fun e => if e.entry_type = ty then e.amount else 0)).sum
      = ((l.filter (fun e => decide (e.period = p ∧ e.entry_type = ty))).map
          (fun e => e.amount)).sum := by
  induction l with
  | nil => rfl
  | cons e l ih =>
    by_cases hp : e.period = p
    · by_cases ht : e.entry_type = ty
      · simp [List.filter_cons, hp, ht, ih]
      · simp [List.filter_cons, hp, ht, ih]
    · simp [List.filter_cons, hp, ih]

/-- A compact builder for payroll items used in concrete test states. -/
def exItem (id : Nat) (m : String) (a : ℚ) (ty : String) : PayrollItem :=
  ⟨id, m, "S", none, none, a, ty⟩

lemma reconcile_totals (s : AppState) :
    (reconcile_monthly_totals s).totals
      = (months s.items).map (monthRow s.items (notesMap s.totals)) := rfl

lemma reconcile_items (s : AppState) :
    (reconcile_monthly_totals s).items = s.items := rfl

lemma monthRow_congr (items : List PayrollItem) (f g : String → Option String)
    (m : String) (h : f m = g m) : monthRow items f m = monthRow items g m := by
  simp only [monthRow, h]

lemma notesMap_reconcile (s : AppState) (m : String) (hm : m ∈ months s.items) :
    notesMap (reconcile_monthly_totals s).totals m = notesMap s.totals m := by
  rw [reconcile_totals s, notesMap,
    find?_map_key (monthRow s.items (notesMap s.totals)) MonthlyTotal.month
      (fun _ => rfl) (months s.items) m hm]
  rfl

/-! ### Claims -/

/-- C1 (corrected), counterexample.  The claim states that after
reconciliation the stored total_deductions is the rounded sum of the
absolute values of the desconto amounts of the period.  In the
single-period variant no absolute value and no rounding is applied: one
desconto entry of amount -850.15 yields a stored total_descontos of
-850.15, while the claim demands round2 of the absolute value, 850.15. -/
theorem C1_counterexample :
    (((recalculate_month_totals [⟨1, "2025-01", "INSS", "desconto", -(17003/20)⟩]
          [] "2025-01").1).find? (fun t => decide (t.period = "2025-01"))).map
        (fun t => t.total_descontos)
      = some (-(17003/20))
    ∧ round2 |(-(17003/20) : ℚ)| = 17003/20
    ∧ (-(17003/20) : ℚ) ≠ 17003/20 := by
  refine ⟨?_, ?_, by norm_num⟩
  · have hd : descSum [⟨1, "2025-01", "INSS", "desconto", -(17003/20)⟩] "2025-01"
        = -(17003/20) := by
      simp [descSum]
    have hp : provSum [⟨1, "2025-01", "INSS", "desconto", -(17003/20)⟩] "2025-01"
        = 0 := by
      simp [provSum]
    simp only [recalculate_month_totals, hd, hp]
    rw [show ((upsertTotals []
        (⟨"2025-01", 0, -(17003/20), 0 - -(17003/20)⟩ : MonthlyTotalsRow)).find?
          (fun t => decide (t.period = "2025-01")))
        = some ⟨"2025-01", 0, -(17003/20), 0 - -(17003/20)⟩
      from find?_upsertTotals [] ⟨"2025-01", 0, -(17003/20), 0 - -(17003/20)⟩]
    rfl
  · have habs : |(-(17003/20) : ℚ)| = 17003/20 := by norm_num
    rw [habs, round2_of_lt_half (17003/20) 85015 (by norm_num) (by norm_num)]
    norm_num

/-- C1 (corrected), amended claim.  After reconciliation the stored
aggregate of a period P is: in the full-rebuild variant, income equal to
round2 of the sum of amounts of entries of P whose type is not desconto
and deductions equal to round2 of the absolute value of the signed sum of
desconto amounts of P (absolute value of the sum, not sum of absolute
values); in the single-period variant, income the raw sum of provento
amounts of P and deductions the raw signed sum of desconto amounts of P,
with no absolute value and no rounding. -/
theorem C1_amended :
    (∀ (s : AppState) (m : String), m ∈ months s.items →
      ((reconcile_monthly_totals s).totals.find? (fun t => decide (t.month = m))).map
          (fun t => (t.total_proventos, t.total_descontos))
        = some (round2 (proventosSum s.items m), round2 |descontosSumSigned s.items m|))
    ∧ (∀ (entries : List DetailEntry) (totals : List MonthlyTotalsRow) (P : String),
      (((recalculate_month_totals entries totals P).1).find?
          (fun t => decide (t.period = P))).map
          (fun t => (t.total_proventos, t.total_descontos))
        = some
            (((entries.filter (fun e => decide (e.period = P ∧ e.entry_type = "provento"))).map
                (fun e => e.amount)).sum,
             ((entries.filter (fun e => decide (e.period = P ∧ e.entry_type = "desconto"))).map
                (fun e => e.amount)).sum)) := by
  constructor
  · intro s m hm
    rw [reconcile_totals s,
      find?_map_key (monthRow s.items (notesMap s.totals)) MonthlyTotal.month
        (fun _ => rfl) (months s.items) m hm]
    rfl
  · intro entries totals P
    have h := find?_upsertTotals totals
      ⟨P, provSum entries P, descSum entries P, provSum entries P - descSum entries P⟩
    have h2 : ((recalculate_month_totals entries totals P).1).find?
        (fun t => decide (t.period = P))
        = some ⟨P, provSum entries P, descSum entries P,
            provSum entries P - descSum entries P⟩ := h
    rw [h2, Option.map_some']
    rw [show provSum entries P
        = ((entries.filter (fun e => decide (e.period = P ∧ e.entry_type = "provento"))).map
            (fun e => e.amount)).sum from case_sum_eq_filter_sum entries P "provento",
      show descSum entries P
        = ((entries.filter (fun e => decide (e.period = P ∧ e.entry_type = "desconto"))).map
            (fun e => e.amount)).sum from case_sum_eq_filter_sum entries P "desconto"]

/-- Concrete state used to instantiate the hypotheses of several amended
claims: one provento item of 10 in 2025-01. -/
def sW1 : AppState := ⟨[exItem 1 "2025-01" 10 "provento"], [], 2⟩

/-- Concrete entry list for single-period instantiations: the scenario of
test_add_and_delete_entry_updates_totals before the delete. -/
def entriesW : List DetailEntry := [⟨1, "2024-01", "Salario base", "provento", 1000⟩]

/-- C1 witness: the amended claim evaluated at concrete inputs. -/
theorem C1_amended_witness :
    ((reconcile_monthly_totals sW1).totals.find?
        (fun t => decide (t.month = "2025-01"))).map
        (fun t => (t.total_proventos, t.total_descontos))
      = some (round2 (proventosSum sW1.items "2025-01"),
          round2 |descontosSumSigned sW1.items "2025-01"|)
    ∧ (((recalculate_month_totals entriesW [] "2024-01").1).find?
        (fun t => decide (t.period = "2024-01"))).map
        (fun t => (t.total_proventos, t.total_descontos))
      = some
          (((entriesW.filter
              (fun e => decide (e.period = "2024-01" ∧ e.entry_type = "provento"))).map
              (fun e => e.amount)).sum,
           ((entriesW.filter
              (fun e => decide (e.period = "2024-01" ∧ e.entry_type = "desconto"))).map
              (fun e => e.amount)).sum) :=
  ⟨C1_amended.1 sW1 "2025-01" (by simp [sW1, months, exItem]),
   C1_amended.2 entriesW [] "2024-01"⟩

/-- Concrete state refuting C2 in the full-rebuild variant: a provento of
1.006 and a desconto of -0.003 in the same month. -/
def sC2 : AppState :=
  ⟨[exItem 1 "2025-01" (503/500) "provento", exItem 2 "2025-01" (-(3/1000)) "desconto"], [], 3⟩

/-- C2 (corrected), counterexample.  The claim states that the stored
net_value is computed by rounding income and deductions to 2 decimals
first and then rounding the difference again.  The full-rebuild variant
instead rounds the difference of the unrounded accumulators: with entries
1.006 (provento) and -0.003 (desconto), the stored row is (1.01, 0.00,
1.00), while the claim demands round2 (1.01 - 0.00) = 1.01. -/
theorem C2_counterexample :
    ((reconcile_monthly_totals sC2).totals.find?
        (fun t => decide (t.month = "2025-01"))).map
        (fun t => (t.total_proventos, t.total_descontos, t.valor_liquido))
      = some (101/100, 0, 1)
    ∧ round2 ((101 : ℚ)/100 - 0) = 101/100
    ∧ ((1 : ℚ)) ≠ 101/100 := by
  have e1 : round2 (503/500) = 101/100 := by
    rw [round2_of_half_lt (503/500) 100 (by norm_num) (by norm_num)]
    norm_num
  have e2 : round2 (3/1000) = 0 := by
    rw [round2_of_lt_half (3/1000) 0 (by norm_num) (by norm_num)]
    norm_num
  have e3 : round2 (503/500 - 3/1000) = 1 := by
    rw [round2_of_lt_half (503/500 - 3/1000) 100 (by norm_num) (by norm_num)]
    norm_num
  refine ⟨?_, ?_, by norm_num⟩
  · have hm : months sC2.items = ["2025-01"] := by simp [months, sC2, exItem]
    have hp : proventosSum sC2.items "2025-01" = 503/500 := by
      simp [proventosSum, sC2, exItem]
    have hd : descontosSumSigned sC2.items "2025-01" = -(3/1000) := by
      simp [descontosSumSigned, sC2, exItem]
    have habs : |descontosSumSigned sC2.items "2025-01"| = 3/1000 := by
      rw [hd]
      norm_num
    have hrow : monthRow sC2.items (notesMap sC2.totals) "2025-01"
        = ⟨"2025-01", 101/100, 0, 1, none⟩ := by
      simp only [monthRow, hp, habs]
      rw [e1, e2, e3]
      simp [notesMap, sC2]
    rw [reconcile_totals sC2, hm]
    simp [hrow, List.find?]
  · rw [show ((101 : ℚ)/100 - 0) = 101/100 by norm_num,
      round2_of_lt_half (101/100) 101 (by norm_num) (by norm_num)]
    norm_num

/-- C2 (corrected), amended claim.  After reconciliation the stored
net_value of period P is: in the full-rebuild variant, round2 applied to
the difference of the unrounded income and deduction accumulators; in the
single-period variant, exactly the unrounded difference of the raw sums. -/
theorem C2_amended :
    (∀ (s : AppState) (m : String), m ∈ months s.items →
      ((reconcile_monthly_totals s).totals.find? (fun t => decide (t.month = m))).map
          (fun t => t.valor_liquido)
        = some (round2 (proventosSum s.items m - |descontosSumSigned s.items m|)))
    ∧ (∀ (entries : List DetailEntry) (totals : List MonthlyTotalsRow) (P : String),
      (((recalculate_month_totals entries totals P).1).find?
          (fun t => decide (t.period = P))).map (fun t => t.valor_liquido)
        = some (provSum entries P - descSum entries P)) := by
  constructor
  · intro s m hm
    rw [reconcile_totals s,
      find?_map_key (monthRow s.items (notesMap s.totals)) MonthlyTotal.month
        (fun _ => rfl) (months s.items) m hm]
    rfl
  · intro entries totals P
    have h2 : ((recalculate_month_totals entries totals P).1).find?
        (fun t => decide (t.period = P))
        = some ⟨P, provSum entries P, descSum entries P,
            provSum entries P - descSum entries P⟩ :=
      find?_upsertTotals totals
        ⟨P, provSum entries P, descSum entries P, provSum entries P - descSum entries P⟩
    rw [h2]
    rfl

/-- C2 witness: the amended claim evaluated at concrete inputs. -/
theorem C2_amended_witness :
    ((reconcile_monthly_totals sW1).totals.find?
        (fun t => decide (t.month = "2025-01"))).map (fun t => t.valor_liquido)
      = some (round2 (proventosSum sW1.items "2025-01"
          - |descontosSumSigned sW1.items "2025-01"|))
    ∧ (((recalculate_month_totals entriesW [] "2024-01").1).find?
        (fun t => decide (t.period = "2024-01"))).map (fun t => t.valor_liquido)
      = some (provSum entriesW "2024-01" - descSum entriesW "2024-01") :=
  ⟨C2_amended.1 sW1 "2025-01" (by simp [sW1, months, exItem]),
   C2_amended.2 entriesW [] "2024-01"⟩

/-- C3 (confirmed): deleting the only entry of a period and reconciling
that period yields a stored zero aggregate in the single-period variant,
and removes the aggregate row entirely in the full-rebuild variant. -/
theorem C3_deletion_policy :
    (∀ (entries : List DetailEntry) (totals : List MonthlyTotalsRow) (P : String),
      (∀ e ∈ entries, e.period ≠ P) →
      ((recalculate_month_totals entries totals P).1).find?
          (fun t => decide (t.period = P)) = some ⟨P, 0, 0, 0⟩)
    ∧ (∀ (s : AppState) (P : String),
      (∀ i ∈ s.items, i.month ≠ P) →
      (reconcile_monthly_totals s).totals.find? (fun t => decide (t.month = P)) = none) := by
  constructor
  · intro entries totals P h
    have hfil : entries.filter (fun e => decide (e.period = P)) = [] :=
      List.filter_eq_nil_iff.mpr (by intro e he; simpa using h e he)
    have hp : provSum entries P = 0 := by rw [provSum, hfil]; rfl
    have hd : descSum entries P = 0 := by rw [descSum, hfil]; rfl
    simp only [recalculate_month_totals, hp, hd, sub_zero]
    exact find?_upsertTotals totals ⟨P, 0, 0, 0⟩
  · intro s P h
    have hP : P ∉ months s.items := by
      simp only [months, List.mem_dedup, List.mem_map]
      rintro ⟨i, hi, him⟩
      exact h i hi him
    rw [reconcile_totals s]
    exact find?_map_key_none (monthRow s.items (notesMap s.totals)) MonthlyTotal.month
      (fun _ => rfl) (months s.items) P hP

/-- C3 witness: the single-period part at the state of the repository test
after the delete (one stale aggregate row, no entries), the full-rebuild
part at a state whose aggregate month has no items. -/
theorem C3_deletion_policy_witness :
    ((recalculate_month_totals [] [⟨"2024-01", 1000, 0, 1000⟩] "2024-01").1).find?
        (fun t => decide (t.period = "2024-01")) = some ⟨"2024-01", 0, 0, 0⟩
    ∧ (reconcile_monthly_totals ⟨[], [⟨"2030-01", 5, 0, 5, none⟩], 1⟩).totals.find?
        (fun t => decide (t.month = "2030-01")) = none :=
  ⟨C3_deletion_policy.1 [] [⟨"2024-01", 1000, 0, 1000⟩] "2024-01" (by simp),
   C3_deletion_policy.2 ⟨[], [⟨"2030-01", 5, 0, 5, none⟩], 1⟩ "2030-01" (by simp)⟩

/-- C5 (confirmed): reconciliation is idempotent in both variants; with no
intervening entry change, the second run reproduces the aggregate table of
the first run exactly. -/
theorem C5_idempotent :
    (∀ s : AppState,
      (reconcile_monthly_totals (reconcile_monthly_totals s)).totals
        = (reconcile_monthly_totals s).totals)
    ∧ (∀ (entries : List DetailEntry) (totals : List MonthlyTotalsRow) (P : String),
      (recalculate_month_totals entries
          ((recalculate_month_totals entries totals P).1) P).1
        = (recalculate_month_totals entries totals P).1) := by
  constructor
  · intro s
    rw [reconcile_totals (reconcile_monthly_totals s), reconcile_items s,
      reconcile_totals s]
    exact List.map_congr_left
      (fun m hm => monthRow_congr s.items _ _ m (notesMap_reconcile s m hm))
  · intro entries totals P
    simp only [recalculate_month_totals]
    exact upsertTotals_idem totals _

/-- C4 (confirmed): an aggregate row whose month still has at least one
payroll item keeps its manually entered notes across the full-rebuild
reconciliation. -/
theorem C4_notes_preserved (s : AppState) (P X : String) (t : MonthlyTotal)
    (h1 : s.totals.find? (fun r => decide (r.month = P)) = some t)
    (h2 : t.notes = some X)
    (h3 : ∃ i ∈ s.items, i.month = P) :
    ((reconcile_monthly_totals s).totals.find? (fun r => decide (r.month = P))).map
        (fun r => r.notes)
      = some (some X) := by
  have hm : P ∈ months s.items := by
    simp only [months, List.mem_dedup, List.mem_map]
    obtain ⟨i, hi, him⟩ := h3
    exact ⟨i, hi, him⟩
  rw [reconcile_totals s,
    find?_map_key (monthRow s.items (notesMap s.totals)) MonthlyTotal.month
      (fun _ => rfl) (months s.items) P hm, Option.map_some']
  show some (notesMap s.totals P) = some (some X)
  rw [notesMap, h1]
  simp [h2]

/-- Concrete state for the C4 witness: an aggregate row for 2025-01 with a
manual note and one payroll item in the same month. -/
def sC4 : AppState :=
  ⟨[exItem 1 "2025-01" 10 "provento"], [⟨"2025-01", 0, 0, 0, some "manual"⟩], 2⟩

/-- C4 witness: the notes preservation applied at a concrete state. -/
theorem C4_notes_preserved_witness :
    ((reconcile_monthly_totals sC4).totals.find?
        (fun r => decide (r.month = "2025-01"))).map (fun r => r.notes)
      = some (some "manual") :=
  C4_notes_preserved sC4 "2025-01" "manual" ⟨"2025-01", 0, 0, 0, some "manual"⟩
    (by simp [sC4, List.find?]) rfl
    ⟨exItem 1 "2025-01" 10 "provento", by simp [sC4], rfl⟩

/-- Concrete state for the C6 counterexample: one existing item, so that
ensure_database_ready does not seed. -/
def sC6 : AppState := ⟨[exItem 1 "2025-01" 100 "provento"], [], 2⟩

/-- C6 (corrected), counterexample.  The claim states that creation fails
with a ValidationError whenever the supplied type is not a recognized enum
value.  In app.py create_item performs no validation of item_type: a
request with the unrecognized type xyz succeeds and the row is inserted. -/
theorem C6_counterexample :
    (create_item sC6 "2025-03" "Extra" none none (some 5) "xyz").toOption.map
        (fun s2 => s2.items)
      = some [exItem 1 "2025-01" 100 "provento",
          ⟨2, "2025-03", "Extra", none, none, 5, "xyz"⟩]
    ∧ ("xyz" : String) ∉ (["provento", "desconto", "outro"] : List String) := by
  refine ⟨rfl, by simp⟩

/-- C6 (corrected), amended claim.  A non-parsing amount makes create_item
raise (modelled: the parse result none yields an error and nothing is
returned), but the entry type is never validated: for every parsed amount
and every type string whatsoever the request succeeds and the items table
afterwards is the old table plus the new row carrying that type. -/
theorem C6_amended (s : AppState) (month subject : String)
    (description reference : Option String) (a : ℚ) (item_type : String) :
    (create_item s month subject description reference none item_type).toOption = none
    ∧ (create_item s month subject description reference (some a) item_type).toOption.map
        (fun s2 => s2.items)
      = some ((ensure_database_ready s).items ++
          [⟨(ensure_database_ready s).nextId, month, subject, description, reference, a,
            item_type⟩]) :=
  ⟨rfl, rfl⟩

/-- C7 (confirmed): a manual aggregate insert for a month that already has
an aggregate row is a warning-level no-op: the state is returned unchanged
(so the existing row keeps every field) and the warning flag is set.  The
items-nonempty hypothesis excludes only the bootstrap corner in which
ensure_database_ready, called by the route before the duplicate check,
would first seed demo data and reconcile. -/
theorem C7_duplicate_total (s : AppState) (month : String) (tp td : ℚ)
    (notes : Option String) (hne : s.items ≠ [])
    (h : ∃ t ∈ s.totals, t.month = month) :
    create_total s month tp td notes = (s, true) := by
  have hb : s.items.isEmpty = false := by
    cases hs : s.items with
    | nil => exact absurd hs hne
    | cons a l => rfl
  have hens : ensure_database_ready s = s := by
    rw [ensure_database_ready, hb]
    rfl
  obtain ⟨t, ht, hmo⟩ := h
  simp only [create_total, hens]
  rw [if_pos]
  exact List.any_eq_true.mpr ⟨t, ht, by simp [hmo]⟩

/-- Concrete state for the C7 witness: a nonempty payroll_items table and
an existing aggregate row for the month of the duplicate insert. -/
def sC7 : AppState :=
  ⟨[exItem 1 "2025-01" 10 "provento"], [⟨"2025-01", 1, 2, -1, none⟩], 2⟩

/-- C7 witness: the no-op applied at a concrete duplicate insert. -/
theorem C7_duplicate_total_witness :
    create_total sC7 "2025-01" 5 5 (some "n") = (sC7, true) :=
  C7_duplicate_total sC7 "2025-01" 5 5 (some "n") (by simp [sC7])
    ⟨⟨"2025-01", 1, 2, -1, none⟩, by simp [sC7], rfl⟩

/-- C8 (confirmed): after the full rebuild the months having an aggregate
row are exactly the distinct months of the payroll items, and a dashboard
page load (the index route, which reconciles before reading) leaves no
aggregate row for a month without items. -/
theorem C8_month_set :
    (∀ (s : AppState) (m : String),
      (∃ t ∈ (reconcile_monthly_totals s).totals, t.month = m)
        ↔ ∃ i ∈ s.items, i.month = m)
    ∧ (∀ (s : AppState) (fm ft : Option String) (P : String),
      s.items ≠ [] → (∀ i ∈ s.items, i.month ≠ P) →
      ((index s fm ft).1).totals.find? (fun t => decide (t.month = P)) = none) := by
  constructor
  · intro s m
    rw [reconcile_totals s]
    constructor
    · rintro ⟨t, ht, hmt⟩
      obtain ⟨m2, hm2, rfl⟩ := List.mem_map.mp ht
      have hm2m : m2 = m := hmt
      subst hm2m
      rw [months] at hm2
      exact List.mem_map.mp (List.mem_dedup.mp hm2)
    · rintro ⟨i, hi, him⟩
      have hm : m ∈ months s.items := by
        rw [months]
        exact List.mem_dedup.mpr (List.mem_map.mpr ⟨i, hi, him⟩)
      exact ⟨monthRow s.items (notesMap s.totals) m, List.mem_map.mpr ⟨m, hm, rfl⟩, rfl⟩
  · intro s fm ft P h1 h2
    have hne : s.items.isEmpty = false := by
      cases hs : s.items with
      | nil => exact absurd hs h1
      | cons a l => rfl
    have hens : ensure_database_ready s = s := by
      rw [ensure_database_ready, hne]
      rfl
    have hidx : ((index s fm ft).1) = reconcile_monthly_totals s := by
      simp only [index, hens]
    have hP : P ∉ months s.items := by
      simp only [months, List.mem_dedup, List.mem_map]
      rintro ⟨i, hi, him⟩
      exact h2 i hi him
    rw [hidx, reconcile_totals s]
    exact find?_map_key_none (monthRow s.items (notesMap s.totals)) MonthlyTotal.month
      (fun _ => rfl) (months s.items) P hP

/-- Concrete state for the C8 witness: one item in 2025-01 and a stale
manually inserted aggregate for 2030-01, a month without items. -/
def sC8 : AppState :=
  ⟨[exItem 1 "2025-01" 10 "provento"], [⟨"2030-01", 5, 0, 5, some "stale"⟩], 2⟩

/-- C8 witness: loading the dashboard deletes the stale aggregate of the
entryless month. -/
theorem C8_month_set_witness :
    ((index sC8 none none).1).totals.find?
        (fun t => decide (t.month = "2030-01")) = none :=
  C8_month_set.2 sC8 none none "2030-01" (by simp [sC8]) (by simp [sC8, exItem])

/-- Concrete state for the C9 counterexample: one item in 2025-01 and a
manual aggregate with notes for 2030-01, a month without items. -/
def sC9 : AppState :=
  ⟨[exItem 1 "2025-01" 100 "provento"], [⟨"2030-01", 5, 1, 4, some "keep"⟩], 2⟩

/-- C9 (corrected), counterexample.  The claim states that rendering the
dashboard never recomputes or mutates aggregate totals.  The index route
runs the full-rebuild reconciliation before reading: on the concrete state
the stored aggregate table after the page load differs from the one before
it (the 2030-01 row is gone, replaced by a freshly computed 2025-01 row). -/
theorem C9_counterexample :
    ((index sC9 none none).1).totals ≠ sC9.totals := by
  have hens : ensure_database_ready sC9 = sC9 := by
    rw [ensure_database_ready]
    rfl
  have hidx : ((index sC9 none none).1) = reconcile_monthly_totals sC9 := by
    simp only [index, hens]
  have hm : months sC9.items = ["2025-01"] := by simp [months, sC9, exItem]
  intro hcontra
  rw [hidx, reconcile_totals sC9, hm] at hcontra
  simp [sC9, monthRow] at hcontra

/-- C9 (corrected), amended claim.  Rendering the dashboard first runs the
full-rebuild reconciliation, so a page load rewrites the aggregate table;
apart from that reconciliation (and first-run seeding on an empty
database) it mutates nothing: the payroll items are unchanged, the totals
it renders are exactly the stored (reconciled) aggregate rows reordered,
and the query results are computed read-only by query_items. -/
theorem C9_amended (s : AppState) (fm ft : Option String) (h : s.items ≠ []) :
    ((index s fm ft).1).items = s.items
    ∧ ((index s fm ft).1).totals = (reconcile_monthly_totals s).totals
    ∧ List.Perm ((index s fm ft).2).totals ((index s fm ft).1).totals
    ∧ ((index s fm ft).2).query_results = query_items s.items fm ft := by
  have hne : s.items.isEmpty = false := by
    cases hs : s.items with
    | nil => exact absurd hs h
    | cons a l => rfl
  have hens : ensure_database_ready s = s := by
    rw [ensure_database_ready, hne]
    rfl
  have h1 : ((index s fm ft).1) = reconcile_monthly_totals s := by
    simp only [index, hens]
  refine ⟨?_, ?_, ?_, ?_⟩
  · rw [h1, reconcile_items]
  · rw [h1]
  · have h2 : ((index s fm ft).2).totals
        = List.insertionSort totalOrderDesc ((reconcile_monthly_totals s).totals) := by
      simp only [index, hens]
    rw [h2, h1]
    exact List.perm_insertionSort totalOrderDesc _
  · have h2 : ((index s fm ft).2).query_results
        = query_items ((reconcile_monthly_totals s).items) fm ft := by
      simp only [index, hens]
    rw [h2, reconcile_items]

/-- C9 witness: the amended claim applied at a concrete nonempty state. -/
theorem C9_amended_witness :
    ((index sW1 none none).1).items = sW1.items
    ∧ ((index sW1 none none).1).totals = (reconcile_monthly_totals sW1).totals
    ∧ List.Perm ((index sW1 none none).2).totals ((index sW1 none none).1).totals
    ∧ ((index sW1 none none).2).query_results = query_items sW1.items none none :=
  C9_amended sW1 none none (by simp [sW1])

/-- C10 (confirmed): query_items returns exactly the items matching the
conjunction of the supplied (present and non-empty) filters, ordered by
month descending and id descending, ids being assigned in insertion order. -/
theorem C10_query (items : List PayrollItem) (fm ft : Option String) :
    List.Perm (query_items items fm ft) (items.filter (matchesFilters fm ft))
    ∧ (∀ i : PayrollItem, matchesFilters fm ft i = true ↔
        ((∀ v, fm = some v → v ≠ "" → i.month = v)
          ∧ (∀ v, ft = some v → v ≠ "" → i.item_type = v)))
    ∧ List.Sorted itemOrder (query_items items fm ft) := by
  refine ⟨List.perm_insertionSort itemOrder _, ?_,
    List.sorted_insertionSort itemOrder _⟩
  intro i
  rw [matchesFilters, Bool.and_eq_true]
  constructor
  · rintro ⟨hm, ht⟩
    constructor
    · intro v hv hne
      subst hv
      simpa [monthFilterOk, hne] using hm
    · intro v hv hne
      subst hv
      simpa [typeFilterOk, hne] using ht
  · rintro ⟨hm, ht⟩
    constructor
    · cases fm with
      | none => rfl
      | some v =>
        by_cases hv : v = ""
        · simp [monthFilterOk, hv]
        · simp only [monthFilterOk, if_neg hv]
          simpa using hm v rfl hv
    · cases ft with
      | none => rfl
      | some v =>
        by_cases hv : v = ""
        · simp [typeFilterOk, hv]
        · simp only [typeFilterOk, if_neg hv]
          simpa using ht v rfl hv

/-- C10 witness: the filtering and ordering statement at a concrete input. -/
theorem C10_query_witness :
    List.Perm (query_items sW1.items (some "2025-01") none)
      (sW1.items.filter (matchesFilters (some "2025-01") none))
    ∧ List.Sorted itemOrder (query_items sW1.items (some "2025-01") none) :=
  ⟨(C10_query sW1.items (some "2025-01") none).1,
   (C10_query sW1.items (some "2025-01") none).2.2⟩

end TrakingIncome
